import Mathlib

/-!
Shallow embedding of the core of `echotune` (src/main.rs): the station
catalog pipeline (name normalization and the two country-code filter
stages), the dataset cache (`get_db`), and the watchdog task spawned by
`main` that polls the shared termination flag.
-/

namespace EchoTune

/-- Embedding of `StructStation` (main.rs lines 33-69).  Rust integer
fields (`i32`, `i8`) become `Int`; `f64` becomes `Float`; no arithmetic
is performed on any of them by the embedded code. -/
structure StructStation where
  changeuuid : String
  stationuuid : String
  name : String
  url : String
  url_resolved : String
  homepage : String
  favicon : String
  tags : String
  country : String
  countrycode : String
  state : String
  language : String
  languagecodes : String
  votes : Int
  lastchangetime : String
  lastchangetime_iso8601 : String
  codec : String
  bitrate : Int
  hls : Int
  lastcheckok : Int
  lastchecktime : String
  lastchecktime_iso8601 : String
  lastlocalchecktime : Option String
  lastlocalchecktime_iso8601 : Option String
  lastcheckoktime : String
  lastcheckoktime_iso8601 : Option String
  clicktimestamp : String
  clicktimestamp_iso8601 : String
  clickcount : Int
  clicktrend : Int
  ssl_error : Int
  geo_lat : Option Float
  geo_long : Option Float
  has_extended_info : Bool

/-- Embedding of `Country` (main.rs lines 77-82). -/
structure Country where
  name : String
  iso_3166_1 : String
  stationcount : Int

/-- Embedding of the clap `Args` struct (main.rs lines 94-112). -/
structure Args where
  countries : Bool
  country : Option String
  language : Option String
  volume : Nat

/-- Name normalization of one station (main.rs lines 154-158): a name
that is exactly the empty string is rewritten to "Unknown". -/
def normalizeName (station : StructStation) : StructStation :=
  if station.name = "" then { station with name := "Unknown" } else station

/-- The normalization pass over the whole catalog (main.rs lines 152-160). -/
def normalizeStations (stations : List StructStation) : List StructStation :=
  stations.map normalizeName

/-- Stage-1 filter by the explicit `--country` argument
(main.rs lines 164-171): with `some c` keep stations whose
`countrycode` equals `c`; with `none` pass the list through. -/
def filterByCountryArg (country : Option String) (stations : List StructStation) :
    List StructStation :=
  match country with
  | some c => stations.filter fun station => station.countrycode == c
  | none => stations

/-- The resolved country code (main.rs lines 173-190): it starts as the
empty string and is overwritten with the interactively selected
country's `iso_3166_1` only when the `--countries` flag is set.  The
interactive selection index is a parameter of the embedding. -/
def resolvedCountryCode (countriesFlag : Bool) (countries : List Country)
    (selection : Nat) : String :=
  if countriesFlag then (countries.getD selection ⟨"", "", 0⟩).iso_3166_1 else ""

/-- Stage-2 filter (main.rs lines 194-197): keep stations whose
`countrycode` equals the resolved country code, whatever it is. -/
def stage2Filter (country_code : String) (stations : List StructStation) :
    List StructStation :=
  stations.filter fun station => station.countrycode == country_code

/-- The whole filtering pipeline of `main` (main.rs lines 147-197):
normalization, then the stage-1 explicit-country filter, then the
stage-2 resolved-country filter.  The `language` argument is carried in
`args` exactly as in the source, where it is parsed but never read. -/
def filterPipeline (args : Args) (stations : List StructStation)
    (countries : List Country) (selection : Nat) : List StructStation :=
  stage2Filter (resolvedCountryCode args.countries countries selection)
    (filterByCountryArg args.country (normalizeStations stations))

/-! ### Dataset cache (`get_db`, main.rs lines 263-321) -/

/-- Local file system state: an association list from path to content;
`lookup` takes the first binding, so consing is overwrite. -/
structure FsState where
  files : List (String × String)
deriving DecidableEq

/-- Existence check, the embedding of `tokio::fs::metadata(path).is_ok()`. -/
def fileExists (fs : FsState) (path : String) : Bool :=
  (fs.files.lookup path).isSome

/-- Create/truncate a file and write the body to it, the embedding of
`File::create` followed by `io::copy`. -/
def writeFile (fs : FsState) (path content : String) : FsState :=
  ⟨(path, content) :: fs.files⟩

/-- Outcome of one HTTP GET as `get_db` observes it: either the
transport fails (`send().await?` or `bytes().await?` errors) or a
response arrives with a status code and body. -/
inductive FetchOutcome where
  | transportError : FetchOutcome
  | response (status : Nat) (body : String) : FetchOutcome
deriving DecidableEq

/-- Environment of one `get_db` run: whether `create_dir_all` fails,
whether building the reqwest client fails, and the network's answer for
each URL. -/
structure Env where
  mkdirFails : Bool
  clientBuildFails : Bool
  fetch : String → FetchOutcome

/-- The error cases `get_db` propagates with `?`. -/
inductive DbError where
  | mkdir : DbError
  | clientBuild : DbError
  | transport : DbError
deriving DecidableEq

/-- reqwest's `StatusCode::is_success`: 200 ≤ status ≤ 299. -/
def statusIsSuccess (status : Nat) : Bool :=
  200 ≤ status && status < 300

def stationsUrl : String := "http://all.api.radio-browser.info/json/stations"

def countriesUrl : String := "http://all.api.radio-browser.info/json/countries"

/-- One dataset block of `get_db` (main.rs lines 283-299 and 301-318,
which are the same code at two url/path pairs): if the file exists do
nothing; otherwise GET the url, propagating transport failure; write
the body only on a 2xx status.  The returned list records the requests
issued, for counting fetches. -/
def ensure_dataset (env : Env) (fs : FsState) (url path : String) :
    Except DbError (FsState × List String) :=
  if fileExists fs path then Except.ok (fs, [])
  else
    match env.fetch url with
    | FetchOutcome.transportError => Except.error DbError.transport
    | FetchOutcome.response status body =>
      if statusIsSuccess status then Except.ok (writeFile fs path body, [url])
      else Except.ok (fs, [url])

/-- Embedding of `get_db` (main.rs lines 263-321): create the data
directory, build the client, then ensure each of the two datasets in
order. -/
def get_db (env : Env) (fs : FsState) (data_dir : String) :
    Except DbError (FsState × List String) :=
  if env.mkdirFails then Except.error DbError.mkdir
  else if env.clientBuildFails then Except.error DbError.clientBuild
  else
    match ensure_dataset env fs stationsUrl (data_dir ++ "/stations.db") with
    | Except.error e => Except.error e
    | Except.ok (fs1, r1) =>
      match ensure_dataset env fs1 countriesUrl (data_dir ++ "/countries.json") with
      | Except.error e => Except.error e
      | Except.ok (fs2, r2) => Except.ok (fs2, r1 ++ r2)

/-- Two successive dataset-ensure calls with the same url and path, the
second starting from the state the first produced; the request lists
are concatenated. -/
def ensure_twice (env : Env) (fs : FsState) (url path : String) :
    Except DbError (FsState × List String) :=
  match ensure_dataset env fs url path with
  | Except.error e => Except.error e
  | Except.ok (fs1, r1) =>
    match ensure_dataset env fs1 url path with
    | Except.error e => Except.error e
    | Except.ok (fs2, r2) => Except.ok (fs2, r1 ++ r2)

/-! ### Watchdog task (main.rs lines 244-254) -/

/-- Observable actions of the watchdog loop body. -/
inductive WatchdogEvent where
  | sleep (ms : Nat) : WatchdogEvent
  | kill (pid : Int) : WatchdogEvent
deriving DecidableEq

/-- One iteration of the watchdog loop body (main.rs lines 245-253):
sleep 100 ms, then issue `kill_process(vlc_pid)` when the pid is not
the sentinel -1. -/
def watchdogBody (pid : Int) : List WatchdogEvent :=
  WatchdogEvent.sleep 100 :: (if pid != -1 then [WatchdogEvent.kill pid] else [])

/-- The event trace of the watchdog loop `while !term.load(..) { .. }`.
`flag n` is the value the n-th load of the shared termination flag
observes; `fuel` bounds how many loop-head checks we unfold (the loop
itself has no bound). -/
def watchdogRun (pid : Int) (flag : Nat → Bool) : Nat → List WatchdogEvent
  | 0 => []
  | fuel + 1 =>
    if flag 0 then []
    else watchdogBody pid ++ watchdogRun pid (fun k => flag (k + 1)) fuel

/-! ### Concrete values used by witnesses and counterexamples -/

/-- A station record with inert values in every field. -/
def defaultStation : StructStation where
  changeuuid := ""
  stationuuid := ""
  name := ""
  url := ""
  url_resolved := ""
  homepage := ""
  favicon := ""
  tags := ""
  country := ""
  countrycode := ""
  state := ""
  language := ""
  languagecodes := ""
  votes := 0
  lastchangetime := ""
  lastchangetime_iso8601 := ""
  codec := ""
  bitrate := 0
  hls := 0
  lastcheckok := 0
  lastchecktime := ""
  lastchecktime_iso8601 := ""
  lastlocalchecktime := none
  lastlocalchecktime_iso8601 := none
  lastcheckoktime := ""
  lastcheckoktime_iso8601 := none
  clicktimestamp := ""
  clicktimestamp_iso8601 := ""
  clickcount := 0
  clicktrend := 0
  ssl_error := 0
  geo_lat := none
  geo_long := none
  has_extended_info := false

/-- A station with a whitespace-only (but not empty) name. -/
def blankNameStation : StructStation :=
  { defaultStation with name := " ", countrycode := "US" }

/-- A station with an empty name. -/
def emptyNameStation : StructStation :=
  { defaultStation with name := "", countrycode := "US" }

/-- A station with a contentful name and a US country code. -/
def usStation : StructStation :=
  { defaultStation with name := "Rock FM", countrycode := "US" }

/-- A station with a contentful name and a blank country code. -/
def blankCodeStation : StructStation :=
  { defaultStation with name := "Nowhere FM", countrycode := "" }

/-- A small demo catalog. -/
def demoStations : List StructStation :=
  [emptyNameStation, usStation, blankCodeStation]

/-- Environment where every fetch yields a 200 response. -/
def envOk : Env :=
  ⟨false, false, fun _ => FetchOutcome.response 200 "[]"⟩

/-- Environment where every fetch yields a 404 response. -/
def envNotFound : Env :=
  ⟨false, false, fun _ => FetchOutcome.response 404 ""⟩

/-- Environment where every fetch fails at the transport level. -/
def envTransportFail : Env :=
  ⟨false, false, fun _ => FetchOutcome.transportError⟩

/-- Environment where creating the data directory fails. -/
def envMkdirFail : Env :=
  ⟨true, false, fun _ => FetchOutcome.response 200 "[]"⟩

/-- The empty file system. -/
def emptyFs : FsState := ⟨[]⟩

/-- A termination-flag schedule that is first observed set at the
third load (loads 0 and 1 see false). -/
def demoFlag (n : Nat) : Bool := decide (2 ≤ n)


/-! ### Theorems -/


/-- C1: the spec's intent is that the watchdog issues forced-termination
requests only after the shared termination flag is set, re-asserting
termination once shutdown is signaled.  The code's loop condition is
inverted: with the flag never set (no signal) and a valid pid, one
unfolding of the loop already issues a kill, and with the flag set from
the start the loop exits at once and issues no kill at all. -/
theorem watchdog_kills_before_flag_set :
    (∀ n, (fun _ : Nat => false) n = false) ∧
    watchdogRun 5 (fun _ => false) 1 =
      [WatchdogEvent.sleep 100, WatchdogEvent.kill 5] ∧
    watchdogRun 5 (fun _ => true) 5 = [] :=
  ⟨fun _ => rfl, rfl, rfl⟩

/-- C2: as long as the flag reads false the watchdog loop runs one body
per poll — sleep 100 ms then kill the pid when it is not -1 — and the
loop ends at the first poll that reads true: if the flag is first
observed set at poll `k`, the whole trace (for any fuel past `k`) is
exactly `k` copies of the body. -/
theorem watchdog_trace_characterization (pid : Int) (flag : Nat → Bool)
    (fuel k : Nat) (hk : flag k = true) (hbefore : ∀ m, m < k → flag m = false)
    (hfuel : k < fuel) :
    watchdogRun pid flag fuel =
      List.flatten (List.replicate k
        (WatchdogEvent.sleep 100 ::
          (if pid != -1 then [WatchdogEvent.kill pid] else []))) := by
  induction k generalizing flag fuel with
  | zero =>
    cases fuel with
    | zero => exact absurd hfuel (Nat.lt_irrefl 0)
    | succ n => simp [watchdogRun, hk]
  | succ k ih =>
    cases fuel with
    | zero => exact absurd hfuel (Nat.not_lt_zero _)
    | succ n =>
      have h0 : flag 0 = false := hbefore 0 (Nat.succ_pos k)
      have hstep : watchdogRun pid flag (n + 1) =
          watchdogBody pid ++ watchdogRun pid (fun j => flag (j + 1)) n := by
        simp [watchdogRun, h0]
      rw [hstep, List.replicate_succ, List.flatten_cons]
      have htail := ih (fun j => flag (j + 1)) n hk
        (fun m hm => hbefore (m + 1) (Nat.succ_lt_succ hm))
        (Nat.lt_of_succ_lt_succ hfuel)
      rw [htail]
      rfl

theorem watchdog_trace_characterization_witness :
    watchdogRun 7 demoFlag 4 =
      List.flatten (List.replicate 2
        (WatchdogEvent.sleep 100 ::
          (if (7 : Int) != -1 then [WatchdogEvent.kill 7] else []))) :=
  watchdog_trace_characterization 7 demoFlag 4 2 (by decide) (by decide) (by decide)


/-- C3: with the `--countries` flag off no interactive choice happens,
the resolved country code stays the empty string, and stage 2 still
filters by it literally: the pipeline result is exactly the stage-1
survivors whose `countrycode` is the empty string, in input order. -/
theorem no_country_selected_keeps_blank_codes (stations : List StructStation)
    (countries : List Country) (selection : Nat) (country lang : Option String)
    (vol : Nat) :
    filterPipeline ⟨false, country, lang, vol⟩ stations countries selection =
      (filterByCountryArg country (normalizeStations stations)).filter
        (fun station => station.countrycode == "") ∧
    (∀ station ∈ filterPipeline ⟨false, country, lang, vol⟩ stations countries selection,
      station.countrycode = "") ∧
    (filterPipeline ⟨false, country, lang, vol⟩ stations countries selection).Sublist
      (filterByCountryArg country (normalizeStations stations)) := by
  refine ⟨rfl, ?_, ?_⟩
  · intro station hs
    have hmem : station ∈ (filterByCountryArg country (normalizeStations stations)).filter
        (fun station => station.countrycode == "") := hs
    exact eq_of_beq (List.mem_filter.mp hmem).2
  · exact List.filter_sublist _

theorem no_country_selected_keeps_blank_codes_witness :
    filterPipeline ⟨false, none, none, 10⟩ demoStations [] 0 =
      (filterByCountryArg none (normalizeStations demoStations)).filter
        (fun station => station.countrycode == "") ∧
    (∀ station ∈ filterPipeline ⟨false, none, none, 10⟩ demoStations [] 0,
      station.countrycode = "") ∧
    (filterPipeline ⟨false, none, none, 10⟩ demoStations [] 0).Sublist
      (filterByCountryArg none (normalizeStations demoStations)) :=
  no_country_selected_keeps_blank_codes demoStations [] 0 none none 10

/-- C4: with the `--countries` flag off and a non-empty explicit
country code, the two filter stages compose to the empty list: stage 1
keeps only stations with that code, stage 2 keeps only stations with
the empty code, and no station has both. -/
theorem explicit_country_without_selection_is_empty (stations : List StructStation)
    (countries : List Country) (selection : Nat) (C : String) (lang : Option String)
    (vol : Nat) (hC : C ≠ "") :
    filterPipeline ⟨false, some C, lang, vol⟩ stations countries selection = [] := by
  show ((normalizeStations stations).filter fun s => s.countrycode == C).filter
      (fun s => s.countrycode == "") = []
  rw [List.filter_filter]
  rw [List.filter_eq_nil_iff]
  intro a _
  simp only [Bool.and_eq_true, beq_iff_eq]
  rintro ⟨h1, h2⟩
  exact hC ((h1.symm.trans h2).symm)

theorem explicit_country_without_selection_is_empty_witness :
    filterPipeline ⟨false, some "US", none, 10⟩ demoStations [] 0 = [] :=
  explicit_country_without_selection_is_empty demoStations [] 0 "US" none 10
    (by decide)

/-- C5: the claim says blank-or-whitespace-only names become "Unknown",
but the code compares the name to the empty string without trimming: a
name consisting of a single space (non-empty, whitespace-only, so empty
after trimming) survives normalization unchanged and is not "Unknown". -/
theorem whitespace_only_name_survives_normalization :
    blankNameStation.name = " " ∧
    " " ≠ "" ∧
    (" ").toList.all Char.isWhitespace = true ∧
    (normalizeName blankNameStation).name = " " ∧
    " " ≠ "Unknown" :=
  ⟨rfl, by decide, by decide, rfl, by decide⟩

/-- C5 (amended): the normalization pass rewrites to "Unknown" exactly
the names that are the empty string; all other names, whitespace-only
ones included, are kept unchanged, position by position. -/
theorem normalize_rewrites_exactly_empty_names (stations : List StructStation)
    (i : Nat) (h : i < stations.length) :
    (normalizeStations stations).getD i defaultStation =
      (if (stations.getD i defaultStation).name = ""
       then { stations.getD i defaultStation with name := "Unknown" }
       else stations.getD i defaultStation) := by
  induction stations generalizing i with
  | nil => exact absurd h (Nat.not_lt_zero i)
  | cons a t ih =>
    cases i with
    | zero => rfl
    | succ j => exact ih j (Nat.lt_of_succ_lt_succ h)

theorem normalize_rewrites_exactly_empty_names_witness :
    (normalizeStations demoStations).getD 0 defaultStation =
      (if (demoStations.getD 0 defaultStation).name = ""
       then { demoStations.getD 0 defaultStation with name := "Unknown" }
       else demoStations.getD 0 defaultStation) :=
  normalize_rewrites_exactly_empty_names demoStations 0 (by decide)

/-- C6: the stage-1 filter with an explicit code `C` returns a sublist
of its input (hence input order is preserved and no element is
duplicated), every returned station's `countrycode` equals `C` by exact
string comparison, and with no explicit code the list passes through
unchanged. -/
theorem stage1_filter_spec (stations : List StructStation) (C : String) :
    (filterByCountryArg (some C) stations).Sublist stations ∧
    (∀ s ∈ filterByCountryArg (some C) stations, s.countrycode = C) ∧
    filterByCountryArg none stations = stations := by
  refine ⟨List.filter_sublist _, ?_, rfl⟩
  intro s hs
  have hmem : s ∈ stations.filter (fun s => s.countrycode == C) := hs
  exact eq_of_beq (List.mem_filter.mp hmem).2

theorem stage1_filter_spec_witness :
    (filterByCountryArg (some "US") demoStations).Sublist demoStations ∧
    (∀ s ∈ filterByCountryArg (some "US") demoStations, s.countrycode = "US") ∧
    filterByCountryArg none demoStations = demoStations :=
  stage1_filter_spec demoStations "US"

/-- C9: normalization touches only the `name` field — writing the old
name back onto the normalized station recovers the original record, so
every other field is unchanged — and both filter stages only select:
every station in a filter stage's output is a member of its input. -/
theorem normalization_and_filters_frame (s : StructStation)
    (stations : List StructStation) (C code : String) :
    { normalizeName s with name := s.name } = s ∧
    (∀ t ∈ filterByCountryArg (some C) stations, t ∈ stations) ∧
    (∀ t ∈ stage2Filter code stations, t ∈ stations) := by
  refine ⟨?_, ?_, ?_⟩
  · simp only [normalizeName]
    split
    · rfl
    · rfl
  · exact fun t ht => (List.mem_filter.mp ht).1
  · exact fun t ht => (List.mem_filter.mp ht).1

theorem normalization_and_filters_frame_witness :
    { normalizeName blankNameStation with name := blankNameStation.name } =
      blankNameStation ∧
    (∀ t ∈ filterByCountryArg (some "US") demoStations, t ∈ demoStations) ∧
    (∀ t ∈ stage2Filter "" demoStations, t ∈ demoStations) :=
  normalization_and_filters_frame blankNameStation demoStations "US" ""

/-- C10: the filtering pipeline never reads the language argument: two
runs that differ only in the parsed `--language` value produce the same
station list. -/
theorem pipeline_ignores_language (stations : List StructStation)
    (countries : List Country) (selection : Nat) (cflag : Bool)
    (country : Option String) (l1 l2 : Option String) (vol : Nat) :
    filterPipeline ⟨cflag, country, l1, vol⟩ stations countries selection =
      filterPipeline ⟨cflag, country, l2, vol⟩ stations countries selection := rfl

/-- C7: as stated, "calling dataset-ensure twice with the same path
performs at most one fetch" fails when the response is non-2xx: the
soft-fail leaves no file, so the second call issues the request again —
two fetches, and the second call is not a no-op. -/
theorem ensure_twice_refetches_after_soft_fail :
    ensure_twice envNotFound emptyFs stationsUrl "data/stations.db" =
      Except.ok (emptyFs, [stationsUrl, stationsUrl]) ∧
    ensure_dataset envNotFound emptyFs stationsUrl "data/stations.db" =
      Except.ok (emptyFs, [stationsUrl]) ∧
    ([stationsUrl] : List String) ≠ [] :=
  ⟨rfl, rfl, by decide⟩

/-- C7 (amended): if a file already exists at the path, dataset-ensure
returns success at once, issues no request and leaves the state
untouched; hence whenever a first call leaves the file present — in
particular when it already existed or the fetch succeeded with 2xx — a
second call issues no request and changes nothing, and the two calls
together issue at most one request. -/
theorem ensure_dataset_noop_when_file_present (env : Env) (fs fs1 : FsState)
    (url path : String) (reqs : List String)
    (h1 : ensure_dataset env fs url path = Except.ok (fs1, reqs))
    (h2 : fileExists fs1 path = true) :
    ensure_dataset env fs1 url path = Except.ok (fs1, []) ∧ reqs.length ≤ 1 := by
  constructor
  · simp [ensure_dataset, h2]
  · rw [ensure_dataset] at h1
    split at h1
    · cases h1
      exact Nat.zero_le 1
    · split at h1
      · exact absurd h1 (by simp)
      · split at h1
        · cases h1
          exact Nat.le_refl 1
        · cases h1
          exact Nat.le_refl 1

theorem ensure_dataset_noop_when_file_present_witness :
    ensure_dataset envOk (writeFile emptyFs "data/stations.db" "[]") stationsUrl
        "data/stations.db" =
      Except.ok (writeFile emptyFs "data/stations.db" "[]", []) ∧
    [stationsUrl].length ≤ 1 :=
  ensure_dataset_noop_when_file_present envOk emptyFs
    (writeFile emptyFs "data/stations.db" "[]") stationsUrl "data/stations.db"
    [stationsUrl] rfl (by decide)

/-- C8: a directory-creation failure makes `get_db` return an error, a
transport failure on a needed fetch makes the dataset block return an
error, and a non-2xx response is not an error: the block returns
success with the file system unchanged, so no file is written for that
dataset. -/
theorem get_db_error_propagation (envM envT envR : Env) (fs : FsState)
    (dir url path : String) (status : Nat) (body : String)
    (hM : envM.mkdirFails = true)
    (hNo : fileExists fs path = false)
    (hT : envT.fetch url = FetchOutcome.transportError)
    (hR : envR.fetch url = FetchOutcome.response status body)
    (hRs : statusIsSuccess status = false) :
    get_db envM fs dir = Except.error DbError.mkdir ∧
    ensure_dataset envT fs url path = Except.error DbError.transport ∧
    ensure_dataset envR fs url path = Except.ok (fs, [url]) := by
  refine ⟨?_, ?_, ?_⟩
  · simp [get_db, hM]
  · simp [ensure_dataset, hNo, hT]
  · simp [ensure_dataset, hNo, hR, hRs]

theorem get_db_error_propagation_witness :
    get_db envMkdirFail emptyFs "data" = Except.error DbError.mkdir ∧
    ensure_dataset envTransportFail emptyFs stationsUrl "data/stations.db" =
      Except.error DbError.transport ∧
    ensure_dataset envNotFound emptyFs stationsUrl "data/stations.db" =
      Except.ok (emptyFs, [stationsUrl]) :=
  get_db_error_propagation envMkdirFail envTransportFail envNotFound emptyFs
    "data" stationsUrl "data/stations.db" 404 "" rfl (by decide) rfl rfl (by decide)

end EchoTune
